import Mathlib

/-!
Shallow embedding of the Ysnsn/aliyun sign-in automation:
`src/app.py` (class `SignIn`, dispatcher `push`), `src/modules/telegram.py`
and `src/modules/pushplus.py`. Python dict/JSON values are modelled by
structures holding exactly the fields the code consumes (`Option` marks a
possibly-absent key), Python strings by Lean strings (character lists for
slicing), and uncaught Python exceptions by `Except.error`.
-/

namespace Aliyun

/-- Python `a or b` for an optional string: `None` and `""` are falsy. -/
def pyOrS : Option String → String → String
  | some s, b => if s = "" then b else s
  | none, b => b

/-- `SignIn.__hide_refresh_token`:
`refresh_token[:4] + '*' * len(refresh_token[4:-4]) + refresh_token[-4:]`.
Slices are modelled on the character list: `s[:4]` is `take 4`,
`len(s[4:-4])` equals `length - 8` clamped at zero, and `s[-4:]` is
`drop (length - 4)` (clamped). The `except IndexError` branch of the source
is dead code, because Python slicing never raises `IndexError`. -/
def hideRefreshToken (s : String) : String :=
  String.mk (s.data.take 4 ++ List.replicate (s.data.length - 8) '*'
    ++ s.data.drop (s.data.length - 4))

/-- Fields of the token-exchange response consumed by
`SignIn.__get_access_token`; `none` models an absent key. -/
structure ExchangeResp where
  code : Option String
  access_token : Option String
  refresh_token : Option String
  user_name : Option String
deriving DecidableEq

/-- The reward descriptor of a log entry (`reward.name`, `reward.description`). -/
structure Reward where
  name : String
  description : String
deriving DecidableEq

/-- One entry of `result.signInLogs`. -/
structure LogEntry where
  status : String
  isReward : Bool
  reward : Reward
deriving DecidableEq

/-- The `result` object of the sign-in response. -/
structure SignInResult where
  signInCount : Nat
  signInLogs : List LogEntry
deriving DecidableEq

/-- Sign-in response: `hasSuccess` models presence of the `success` key;
`result` is `none` when the `result` key is absent. -/
structure SignInResp where
  hasSuccess : Bool
  result : Option SignInResult
deriving DecidableEq

/-- A raw response stored into `self.error` as the diagnostic payload. -/
inductive Payload where
  | exchange (r : ExchangeResp)
  | signin (r : SignInResp)
deriving DecidableEq

/-- Python exceptions that can escape the session. -/
inductive PyErr where
  | keyError (key : String)
  | typeError
deriving DecidableEq

/-- The mutable fields of a `SignIn` instance. -/
structure SignInState where
  refresh_token : String
  hide_refresh_token : String
  access_token : Option String
  new_refresh_token : Option String
  phone : Option String
  signin_count : Nat
  signin_reward : Option String
  error : Option Payload
deriving DecidableEq

/-- `SignIn.__init__`. -/
def initState (rt : String) : SignInState :=
  { refresh_token := rt
    hide_refresh_token := hideRefreshToken rt
    access_token := none
    new_refresh_token := none
    phone := none
    signin_count := 0
    signin_reward := none
    error := none }

/-- `SignIn.__get_access_token`, given the JSON response `data` of the
exchange endpoint. Returns the Python return value (a `Bool`) together with
the updated instance state, or the uncaught exception. `data['code']` on an
absent key raises `KeyError`, which the source catches with
`except KeyError: pass`; the later field reads `data['access_token']`,
`data['refresh_token']`, `data['user_name']` are not guarded, so an absent
key there propagates `KeyError`. -/
def getAccessToken (st : SignInState) (data : ExchangeResp) :
    Except PyErr (Bool × SignInState) :=
  if data.code = some "RefreshTokenExpired"
      ∨ data.code = some "InvalidParameter.RefreshToken" then
    Except.ok (false, { st with error := some (Payload.exchange data) })
  else
    match data.access_token with
    | none => Except.error (PyErr.keyError "access_token")
    | some tok =>
      match data.refresh_token with
      | none => Except.error (PyErr.keyError "refresh_token")
      | some newRt =>
        match data.user_name with
        | none => Except.error (PyErr.keyError "user_name")
        | some un =>
          Except.ok (true, { st with
            access_token := some tok
            new_refresh_token := some newRt
            phone := some un })

/-- Index of the first log entry whose `status` equals `'miss'`
(the `for i, day in enumerate(...)` loop of `SignIn.__sign_in`). -/
def firstMissIdx : List LogEntry → Option Nat
  | [] => none
  | d :: rest =>
    if d.status = "miss" then some 0 else (firstMissIdx rest).map (· + 1)

/-- The value of `current_day` after the loop: `signInLogs[i - 1]` where `i`
is the first miss index. At `i = 0` Python evaluates `signInLogs[-1]`, the
last element; with no missed entry `current_day` stays `None`. -/
def findCurrentDay (logs : List LogEntry) : Option LogEntry :=
  match firstMissIdx logs with
  | none => none
  | some 0 => logs.getLast?
  | some (i + 1) => logs.get? i

/-- The reward string of `SignIn.__sign_in`:
`'无奖励' if not current_day['isReward'] else f'获得 {...name} {...description}'`. -/
def rewardText (d : LogEntry) : String :=
  if !d.isReward then "无奖励"
  else "获得 " ++ d.reward.name ++ " " ++ d.reward.description

/-- `SignIn.__sign_in`, given the JSON response `data` of the sign-in
endpoint. When the `success` key is absent the raw payload is stored into
`self.error` and the method returns. When no log entry is missed,
`current_day` is still `None` and `current_day['isReward']` raises
`TypeError`, which nothing catches. -/
def signInStep (st : SignInState) (data : SignInResp) : Except PyErr SignInState :=
  if !data.hasSuccess then
    Except.ok { st with error := some (Payload.signin data) }
  else
    match data.result with
    | none => Except.error (PyErr.keyError "result")
    | some r =>
      match findCurrentDay r.signInLogs with
      | none => Except.error PyErr.typeError
      | some d =>
        Except.ok { st with
          signin_count := r.signInCount
          signin_reward := some (rewardText d) }

/-- The branch taken by `SignIn.__generate_result` for `text` and
`text_html`, with the interpolated values as fields (f-string rendering and
`json.dumps` of the diagnostic payload are abstracted to the constructor's
arguments; `diag = none` models `json.dumps(None)`). -/
inductive ReportFragment where
  | success (user : String) (count : Nat) (reward : Option String)
  | failure (user : String) (diag : Option Payload)
deriving DecidableEq

/-- The dict returned by `SignIn.__generate_result`. -/
structure SIResult where
  success : Bool
  user : String
  refresh_token : String
  count : Nat
  reward : Option String
  text : ReportFragment
  text_html : ReportFragment
deriving DecidableEq

/-- `SignIn.__generate_result`. `self.phone or self.hide_refresh_token` and
`self.new_refresh_token or self.refresh_token` are Python `or`, falsy on
`None` and `""`; `True if self.signin_count else False` is falsy on `0`. -/
def generateResult (st : SignInState) : SIResult :=
  { success := st.signin_count != 0
    user := pyOrS st.phone st.hide_refresh_token
    refresh_token := pyOrS st.new_refresh_token st.refresh_token
    count := st.signin_count
    reward := st.signin_reward
    text :=
      if st.signin_count != 0 then
        ReportFragment.success (pyOrS st.phone st.hide_refresh_token)
          st.signin_count st.signin_reward
      else
        ReportFragment.failure (pyOrS st.phone st.hide_refresh_token) st.error
    text_html :=
      if st.signin_count != 0 then
        ReportFragment.success (pyOrS st.phone st.hide_refresh_token)
          st.signin_count st.signin_reward
      else
        ReportFragment.failure (pyOrS st.phone st.hide_refresh_token) st.error }

/-- `SignIn.run`, with the two remote responses supplied as inputs. When the
exchange step returns `False`, `__sign_in` is not called and `data2` is
unused; an exception raised in either step propagates to the caller. -/
def run (st : SignInState) (data1 : ExchangeResp) (data2 : SignInResp) :
    Except PyErr SIResult :=
  match getAccessToken st data1 with
  | Except.error e => Except.error e
  | Except.ok (result, st1) =>
    if result then
      match signInStep st1 data2 with
      | Except.error e => Except.error e
      | Except.ok st2 => Except.ok (generateResult st2)
    else
      Except.ok (generateResult st1)

/-- One credential session: `SignIn(config, refresh_token).run()`. -/
def runSession (rt : String) (data1 : ExchangeResp) (data2 : SignInResp) :
    Except PyErr SIResult :=
  run (initState rt) data1 data2

/-- The config keys consumed by the dispatcher `app.push` and by the
telegram and pushplus channels. `push_types` may be a single string or a
list, as in the source's `type(config['push_types']) == str` test. -/
structure PushConfig where
  push_types : String ⊕ List String
  telegram_endpoint : String
  telegram_bot_token : String
  telegram_chat_id : String
  telegram_proxy : Option String
  pushplus_token : String
deriving DecidableEq

/-- Outcome of one `requests.post` call made by a channel: either the call
raises, or it returns a response with an HTTP status code and a body whose
parsed JSON is truthy or falsy (a body on which `.json()` raises is folded
into `raised`, since that exception propagates identically). -/
inductive TransportResult where
  | raised : TransportResult
  | response (status : Nat) (bodyTruthy : Bool) : TransportResult
deriving DecidableEq

/-- One transport outcome per channel for a single dispatch. The dingtalk,
serverchan, pushdeer and smtp module sources are not in the repository
snapshot, so their outcomes are the plain booleans their `push` returns. -/
structure PushEnv where
  dingtalk : Bool
  serverchan : Bool
  pushdeer : Bool
  telegram : TransportResult
  pushplus : TransportResult
  smtp : Bool
deriving DecidableEq

/-- `telegram.Pusher.send`: returns the parsed body on HTTP 200 (modelled by
its truthiness) and `None` on any other status (after logging the failure);
a transport error raised by `requests.post` propagates. -/
def telegramSend : TransportResult → Except Unit (Option Bool)
  | TransportResult.raised => Except.error ()
  | TransportResult.response status bodyTruthy =>
    if status = 200 then Except.ok (some bodyTruthy) else Except.ok none

/-- `telegram.push`: `False` when the endpoint, bot token or chat id setting
is falsy, `False` when an exception was raised inside the `try` block, and
otherwise `True` — the truthiness of `pusher.send(...)` only controls a
success log line, so a non-200 response still yields `True`. -/
def telegramPush (cfg : PushConfig) (t : TransportResult) : Bool :=
  if cfg.telegram_endpoint = "" ∨ cfg.telegram_bot_token = ""
      ∨ cfg.telegram_chat_id = "" then
    false
  else
    match telegramSend t with
    | Except.error _ => false
    | Except.ok _ => true

/-- `pushplus.Pusher.send`: `requests.post(...).json()` — the HTTP status
code is never inspected; a transport or parse error propagates. -/
def pushplusSend : TransportResult → Except Unit Bool
  | TransportResult.raised => Except.error ()
  | TransportResult.response _ bodyTruthy => Except.ok bodyTruthy

/-- `pushplus.push`: `False` when the token setting is falsy, `False` when
`send` raised, otherwise `True` (the returned dict is discarded). -/
def pushplusPush (cfg : PushConfig) (t : TransportResult) : Bool :=
  if cfg.pushplus_token = "" then false
  else
    match pushplusSend t with
    | Except.error _ => false
    | Except.ok _ => true

/-- Modelled from the spec: the dingtalk, serverchan, pushdeer and smtp
modules are not under src/; the spec gives only the channel contract
`send(title, content) -> bool` with every transport failure caught inside
the channel, so each such channel is modelled as its boolean outcome. -/
def specChannelPush (outcome : Bool) : Bool := outcome

/-- Python `str.strip()` on the character list: drop whitespace from both ends. -/
def stripChars (l : List Char) : List Char :=
  ((l.dropWhile Char.isWhitespace).reverse.dropWhile Char.isWhitespace).reverse

/-- The per-entry normalisation `i.lower().strip()` of `app.push`. -/
def pyLowerStrip (s : String) : String :=
  String.mk (stripChars (s.data.map Char.toLower))

/-- `configured_push_types` of `app.push`: a bare string becomes a
one-element list, then every entry gets `.lower().strip()`. -/
def configuredPushTypes (cfg : PushConfig) : List String :=
  (match cfg.push_types with
   | Sum.inl s => [s]
   | Sum.inr l => l).map pyLowerStrip

/-- The fixed channel table of `app.push`, in dict insertion order. -/
def channelNames : List String :=
  ["dingtalk", "serverchan", "pushdeer", "telegram", "pushplus", "smtp"]

/-- The `pusher.push(config, content, content_html, title)` call made for
one channel of the table, dispatched on the channel name. -/
def invokeChannel (cfg : PushConfig) (env : PushEnv) (name : String) : Bool :=
  if name = "dingtalk" then specChannelPush env.dingtalk
  else if name = "serverchan" then specChannelPush env.serverchan
  else if name = "pushdeer" then specChannelPush env.pushdeer
  else if name = "telegram" then telegramPush cfg env.telegram
  else if name = "pushplus" then pushplusPush cfg env.pushplus
  else if name = "smtp" then specChannelPush env.smtp
  else false

/-- `app.push`. The first component is the Python return value: the function
body contains no `return` statement, so every call returns `None`. The
second component is the trace of channel invocations — one pair
`(channel name, returned bool)` per entry of the channel table whose name
is in `configured_push_types`, in table order; the source discards each
returned bool. -/
def push (cfg : PushConfig) (env : PushEnv) :
    Option (List (String × Bool)) × List (String × Bool) :=
  (none,
    channelNames.filterMap fun name =>
      if name ∈ configuredPushTypes cfg
      then some (name, invokeChannel cfg env name) else none)

/-! Sample inputs used by the claim witnesses and counterexamples. -/

/-- A log entry with status `signed` and no reward. -/
def signedDay : LogEntry := { status := "signed", isReward := false, reward := { name := "", description := "" } }

/-- A log entry with status `miss`. -/
def missDay : LogEntry := { status := "miss", isReward := false, reward := { name := "", description := "" } }

/-- A well-formed successful exchange response. -/
def exOk : ExchangeResp :=
  { code := none, access_token := some "acc", refresh_token := some "newrt",
    user_name := some "13800138000" }

/-- An exchange response reporting an expired refresh token. -/
def exExpired : ExchangeResp :=
  { code := some "RefreshTokenExpired", access_token := none,
    refresh_token := none, user_name := none }

/-- A sign-in response with the `success` key absent. -/
def siNoSuccess : SignInResp := { hasSuccess := false, result := none }

/-- A push config enabling telegram and pushplus, with complete settings. -/
def cfgTP : PushConfig :=
  { push_types := Sum.inr ["telegram", "pushplus"]
    telegram_endpoint := "https://api.telegram.org"
    telegram_bot_token := "bot123"
    telegram_chat_id := "42"
    telegram_proxy := none
    pushplus_token := "tok" }

/-- A push config enabling only telegram, with complete settings. -/
def cfgTel : PushConfig := { cfgTP with push_types := Sum.inr ["telegram"] }

/-- A transport environment where every channel succeeds. -/
def envAllOk : PushEnv :=
  { dingtalk := true, serverchan := true, pushdeer := true,
    telegram := TransportResult.response 200 true,
    pushplus := TransportResult.response 200 true, smtp := true }

/-! Helper lemmas shared between claims. -/

/-- The channel names of the invocation trace are the table entries whose
name is in the configured types. -/
theorem push_snd_names (cfg : PushConfig) (env : PushEnv) :
    (push cfg env).snd.map Prod.fst
      = channelNames.filter fun name => decide (name ∈ configuredPushTypes cfg) := by
  show (channelNames.filterMap fun name =>
      if name ∈ configuredPushTypes cfg
      then some (name, invokeChannel cfg env name) else none).map Prod.fst = _
  induction channelNames with
  | nil => rfl
  | cons x xs ih =>
    by_cases hx : x ∈ configuredPushTypes cfg <;>
      simp [List.filterMap_cons, List.filter_cons, hx, ih]

/-- The channel table has no duplicate names. -/
theorem channelNames_nodup : channelNames.Nodup := by decide

/-! Claim C1. -/

/-- C1: the claim says no exception ever escapes `run()`, for every sign-in
response, including a month log with no missed entry. The code violates
this: with a successful exchange and a sign-in response that carries the
`success` key but whose log contains no entry with status `miss`,
`current_day` stays `None`, `current_day['isReward']` raises `TypeError`,
and the exception escapes `run` — no Result is produced. -/
theorem run_raises_on_all_signed_log :
    runSession "token-0001" exOk
      { hasSuccess := true,
        result := some { signInCount := 5, signInLogs := [signedDay, signedDay] } }
      = Except.error PyErr.typeError := by
  rfl

/-! Claim C4. -/

/-- C4 counterexample: a 3-character credential is not displayed unchanged —
the display form duplicates characters: `hide("abc") = "abcabc"`. -/
theorem hide_short_not_identity :
    hideRefreshToken "abc" = "abcabc" ∧ "abcabc" ≠ "abc" := by
  exact ⟨rfl, by decide⟩

/-- C4 (amended): for a credential of length at least 8 the display form has
the input's length, keeps its first 4 and last 4 characters, and every
character strictly between them is `'*'` (one per hidden character); for a
credential shorter than 8 characters the display form is the first 4
characters followed by the last 4 characters of the input — overlapping
characters are duplicated, so it equals the input only in degenerate cases,
not in general. -/
theorem hide_refresh_token_shape (s : String) :
    (8 ≤ s.data.length →
      (hideRefreshToken s).data.length = s.data.length
      ∧ (hideRefreshToken s).data.take 4 = s.data.take 4
      ∧ (hideRefreshToken s).data.drop (s.data.length - 4)
          = s.data.drop (s.data.length - 4)
      ∧ ∀ c ∈ ((hideRefreshToken s).data.drop 4).take (s.data.length - 8), c = '*')
    ∧ (s.data.length < 8 →
      (hideRefreshToken s).data = s.data.take 4 ++ s.data.drop (s.data.length - 4)) := by
  have hd : (hideRefreshToken s).data
      = (s.data.take 4 ++ List.replicate (s.data.length - 8) '*')
        ++ s.data.drop (s.data.length - 4) := rfl
  constructor
  · intro h8
    have htake : (s.data.take 4).length = 4 := by
      rw [List.length_take]
      omega
    have hrep : (List.replicate (s.data.length - 8) '*').length = s.data.length - 8 :=
      List.length_replicate _ _
    have hcat : (s.data.take 4 ++ List.replicate (s.data.length - 8) '*').length
        = s.data.length - 4 := by
      rw [List.length_append, htake, hrep]
      omega
    refine ⟨?_, ?_, ?_, ?_⟩
    · rw [hd, List.length_append, List.length_append, htake, hrep, List.length_drop]
      omega
    · rw [hd, List.append_assoc,
        List.take_append_of_le_length (le_of_eq htake.symm), List.take_take]
      simp
    · rw [hd, List.drop_left' hcat]
    · intro c hc
      rw [hd, List.append_assoc, List.drop_left' htake,
        List.take_left' hrep] at hc
      exact List.eq_of_mem_replicate hc
  · intro h8
    have h0 : s.data.length - 8 = 0 := by omega
    rw [hd, h0]
    simp

/-- C4 witness: the long branch at a 10-character credential and the short
branch at a 5-character credential. -/
theorem hide_refresh_token_shape_witness :
    ((hideRefreshToken "abcdefghij").data.length = "abcdefghij".data.length
      ∧ (hideRefreshToken "abcdefghij").data.take 4 = "abcdefghij".data.take 4
      ∧ (hideRefreshToken "abcdefghij").data.drop ("abcdefghij".data.length - 4)
          = "abcdefghij".data.drop ("abcdefghij".data.length - 4)
      ∧ ∀ c ∈ ((hideRefreshToken "abcdefghij").data.drop 4).take
          ("abcdefghij".data.length - 8), c = '*')
    ∧ (hideRefreshToken "abcde").data
        = "abcde".data.take 4 ++ "abcde".data.drop ("abcde".data.length - 4) :=
  ⟨(hide_refresh_token_shape "abcdefghij").1 (by decide),
   (hide_refresh_token_shape "abcde").2 (by decide)⟩

/-! Claim C2. -/

/-- C2 counterexample: with enabled channels `{telegram, pushplus}` exactly
two channels are attempted, yet the dispatcher's return value is `None` —
no mapping with two keys is returned to the caller. -/
theorem push_returns_none_counterexample :
    (push cfgTP envAllOk).snd.length = 2 ∧ (push cfgTP envAllOk).fst = none := by
  exact ⟨rfl, rfl⟩

/-- C2 (amended): for every config, the dispatcher performs exactly one
channel invocation per entry of the channel table whose normalised name is
in the configured push types — the invocation trace has exactly one entry
per attempted channel and no duplicates, and the dispatcher is a total
function (it never raises) — but its return value is `None`, not the
outcome mapping, and the per-channel outcomes are discarded. -/
theorem push_trace_shape (cfg : PushConfig) (env : PushEnv) :
    (push cfg env).fst = none
    ∧ (push cfg env).snd.map Prod.fst
        = channelNames.filter (fun name => decide (name ∈ configuredPushTypes cfg))
    ∧ ((push cfg env).snd.map Prod.fst).Nodup := by
  refine ⟨rfl, push_snd_names cfg env, ?_⟩
  rw [push_snd_names cfg env]
  exact channelNames_nodup.filter _

/-! Claim C3. -/

/-- C3: when the first missed entry of the log is at index `i > 0`, the
current day is the entry at index `i - 1` — the entry immediately preceding
the first miss — and the stored reward text is computed from it by
`rewardText` (`无奖励`, "no reward", when its reward flag is unset,
`获得 <name> <description>`, "received ...", otherwise). -/
theorem signin_current_day_before_first_miss
    (st : SignInState) (data : SignInResp) (r : SignInResult) (i : Nat) (d : LogEntry)
    (hs : data.hasSuccess = true) (hr : data.result = some r)
    (hi : firstMissIdx r.signInLogs = some i) (hpos : 0 < i)
    (hd : r.signInLogs[i - 1]? = some d) :
    signInStep st data
      = Except.ok { st with signin_count := r.signInCount,
                            signin_reward := some (rewardText d) } := by
  obtain ⟨j, rfl⟩ : ∃ j, i = j + 1 := ⟨i - 1, by omega⟩
  simp only [Nat.add_sub_cancel] at hd
  simp [signInStep, hs, hr, findCurrentDay, hi, hd]

/-- C3 witness at the log `[signed, signed, missed, signed]`: the first miss
is at index 2 and the entry at index 1 (the second signed entry) is
selected. -/
theorem signin_current_day_before_first_miss_witness :
    signInStep (initState "t")
      { hasSuccess := true,
        result := some { signInCount := 2,
                         signInLogs := [signedDay, signedDay, missDay, signedDay] } }
      = Except.ok { (initState "t") with signin_count := 2,
                                         signin_reward := some (rewardText signedDay) } :=
  signin_current_day_before_first_miss (initState "t")
    { hasSuccess := true,
      result := some { signInCount := 2,
                       signInLogs := [signedDay, signedDay, missDay, signedDay] } }
    { signInCount := 2, signInLogs := [signedDay, signedDay, missDay, signedDay] }
    2 signedDay rfl rfl (by decide) (by decide) (by decide)

/-! Claim C10. -/

/-- C10: when the log's first entry has status missed, Python's
`signInLogs[0 - 1]` reads `signInLogs[-1]` — negative-index wraparound — so
the last entry is selected as the current day and the reward text is
computed from it. -/
theorem first_entry_missed_wraparound
    (st : SignInState) (data : SignInResp) (r : SignInResult) (d0 last : LogEntry)
    (rest : List LogEntry)
    (hs : data.hasSuccess = true) (hr : data.result = some r)
    (hlog : r.signInLogs = d0 :: rest) (hmiss : d0.status = "miss")
    (hlast : r.signInLogs.getLast? = some last) :
    signInStep st data
      = Except.ok { st with signin_count := r.signInCount,
                            signin_reward := some (rewardText last) } := by
  rw [hlog] at hlast
  simp [signInStep, hs, hr, findCurrentDay, hlog, firstMissIdx, hmiss, hlast]

/-- C10 witness at the log `[missed, signed]`: the last entry is selected. -/
theorem first_entry_missed_wraparound_witness :
    signInStep (initState "t")
      { hasSuccess := true,
        result := some { signInCount := 7, signInLogs := [missDay, signedDay] } }
      = Except.ok { (initState "t") with signin_count := 7,
                                         signin_reward := some (rewardText signedDay) } :=
  first_entry_missed_wraparound (initState "t")
    { hasSuccess := true,
      result := some { signInCount := 7, signInLogs := [missDay, signedDay] } }
    { signInCount := 7, signInLogs := [missDay, signedDay] }
    missDay signedDay [signedDay] rfl rfl rfl rfl rfl

/-! Claim C5. -/

/-- An exchange response that succeeds but rotates to the empty credential. -/
def exEmptyNewRt : ExchangeResp :=
  { code := none, access_token := some "acc", refresh_token := some "",
    user_name := some "u1" }

/-- C5 counterexample: the exchange succeeds and returns the fresh credential
`""`, the sign-in response lacks the success indicator, yet the Result's
rotated-credential field equals the original input, not the fresh
credential: `self.new_refresh_token or self.refresh_token` falls back on the
falsy empty string. -/
theorem rotated_credential_empty_fallback :
    (runSession "original-token" exEmptyNewRt siNoSuccess).map SIResult.refresh_token
      = Except.ok "original-token"
    ∧ ("original-token" : String) ≠ "" :=
  ⟨rfl, by decide⟩

/-- C5 (amended): when the exchange succeeds and the sign-in response lacks
the success indicator, the Result has success=false, its failure fragments
carry the raw sign-in response as diagnostic payload, and its
rotated-credential field equals the fresh credential returned by the
exchange provided that credential is non-empty (an empty fresh credential
falls back to the original input through Python `or`). -/
theorem signin_missing_success_result
    (rt tok newRt un : String) (data1 : ExchangeResp) (data2 : SignInResp)
    (h1 : data1.code ≠ some "RefreshTokenExpired")
    (h2 : data1.code ≠ some "InvalidParameter.RefreshToken")
    (ha : data1.access_token = some tok)
    (hb : data1.refresh_token = some newRt)
    (hc : data1.user_name = some un)
    (hne : newRt ≠ "") (hs : data2.hasSuccess = false) :
    runSession rt data1 data2
      = Except.ok
        { success := false
          user := pyOrS (some un) (hideRefreshToken rt)
          refresh_token := newRt
          count := 0
          reward := none
          text := ReportFragment.failure (pyOrS (some un) (hideRefreshToken rt))
            (some (Payload.signin data2))
          text_html := ReportFragment.failure (pyOrS (some un) (hideRefreshToken rt))
            (some (Payload.signin data2)) } := by
  simp [runSession, run, getAccessToken, h1, h2, ha, hb, hc, signInStep, hs,
    generateResult, initState, pyOrS, hne]

/-- C5 witness: exchange rotates to `"newrt"`, sign-in lacks `success`. -/
theorem signin_missing_success_result_witness :
    runSession "orig" exOk siNoSuccess
      = Except.ok
        { success := false
          user := pyOrS (some "13800138000") (hideRefreshToken "orig")
          refresh_token := "newrt"
          count := 0
          reward := none
          text := ReportFragment.failure
            (pyOrS (some "13800138000") (hideRefreshToken "orig"))
            (some (Payload.signin siNoSuccess))
          text_html := ReportFragment.failure
            (pyOrS (some "13800138000") (hideRefreshToken "orig"))
            (some (Payload.signin siNoSuccess)) } :=
  signin_missing_success_result "orig" "acc" "newrt" "13800138000" exOk siNoSuccess
    (by decide) (by decide) rfl rfl rfl (by decide) rfl

/-! Claim C6. -/

/-- C6: when the exchange response carries code `RefreshTokenExpired` or
`InvalidParameter.RefreshToken`, the session yields a failure Result whose
diagnostic payload is the raw exchange response and whose rotated-credential
field is the original input credential, and the result does not depend on
any sign-in response — no sign-in call is made. -/
theorem invalid_credential_terminates
    (rt : String) (data1 : ExchangeResp) (data2 data2' : SignInResp)
    (hc : data1.code = some "RefreshTokenExpired"
      ∨ data1.code = some "InvalidParameter.RefreshToken") :
    runSession rt data1 data2
      = Except.ok
        { success := false, user := hideRefreshToken rt, refresh_token := rt,
          count := 0, reward := none,
          text := ReportFragment.failure (hideRefreshToken rt)
            (some (Payload.exchange data1)),
          text_html := ReportFragment.failure (hideRefreshToken rt)
            (some (Payload.exchange data1)) }
    ∧ runSession rt data1 data2 = runSession rt data1 data2' := by
  have hga : getAccessToken (initState rt) data1
      = Except.ok (false,
        { refresh_token := rt, hide_refresh_token := hideRefreshToken rt,
          access_token := none, new_refresh_token := none, phone := none,
          signin_count := 0, signin_reward := none,
          error := some (Payload.exchange data1) }) := by
    unfold getAccessToken initState
    rw [if_pos hc]
  constructor
  · unfold runSession run
    rw [hga]
    simp [generateResult, pyOrS]
  · unfold runSession run
    rw [hga]
    rfl

/-- A sign-in response with the `success` key present but no `result`. -/
def siSuccessEmpty : SignInResp := { hasSuccess := true, result := none }

/-- C6 witness at code `RefreshTokenExpired`, with two different sign-in
responses left unconsumed. -/
theorem invalid_credential_terminates_witness :
    (runSession "tokA" exExpired siNoSuccess
      = Except.ok
        { success := false, user := hideRefreshToken "tokA", refresh_token := "tokA",
          count := 0, reward := none,
          text := ReportFragment.failure (hideRefreshToken "tokA")
            (some (Payload.exchange exExpired)),
          text_html := ReportFragment.failure (hideRefreshToken "tokA")
            (some (Payload.exchange exExpired)) })
    ∧ runSession "tokA" exExpired siNoSuccess
        = runSession "tokA" exExpired siSuccessEmpty :=
  invalid_credential_terminates "tokA" exExpired siNoSuccess siSuccessEmpty (Or.inl rfl)

/-! Claim C9. -/

/-- The success flag of a generated result is the non-zeroness of the stored
count, and a zero count produces failure-formatted fragments. -/
theorem generateResult_success_iff (st : SignInState) :
    ((generateResult st).success = true ↔ (generateResult st).count ≠ 0)
    ∧ ((generateResult st).count = 0 →
      (generateResult st).success = false
      ∧ ∃ u p, (generateResult st).text = ReportFragment.failure u p) := by
  constructor
  · simp [generateResult]
  · intro h0
    have hz : st.signin_count = 0 := by simpa [generateResult] using h0
    refine ⟨by simp [generateResult, hz], ?_⟩
    exact ⟨pyOrS st.phone st.hide_refresh_token, st.error,
      by simp [generateResult, hz]⟩

/-- C9: whenever a session run produces a Result, its success flag is true
iff the stored signed-day count is non-zero, and a zero count — even after a
successful exchange and sign-in — yields success=false together with a
failure-formatted report fragment. -/
theorem result_success_iff_count
    (rt : String) (data1 : ExchangeResp) (data2 : SignInResp) (res : SIResult)
    (h : runSession rt data1 data2 = Except.ok res) :
    (res.success = true ↔ res.count ≠ 0)
    ∧ (res.count = 0 →
      res.success = false ∧ ∃ u p, res.text = ReportFragment.failure u p) := by
  unfold runSession run at h
  cases hga : getAccessToken (initState rt) data1 with
  | error e => rw [hga] at h; exact absurd h (by simp)
  | ok pr =>
    obtain ⟨b, st1⟩ := pr
    rw [hga] at h
    cases b with
    | false =>
      simp only [Bool.false_eq_true, if_false, Except.ok.injEq] at h
      subst h
      exact generateResult_success_iff st1
    | true =>
      cases hsi : signInStep st1 data2 with
      | error e => simp [hsi] at h
      | ok st2 =>
        simp only [hsi] at h
        simp at h
        subst h
        exact generateResult_success_iff st2

/-- A successful sign-in response reporting a zero signed-day count. -/
def siZero : SignInResp :=
  { hasSuccess := true,
    result := some { signInCount := 0, signInLogs := [missDay, signedDay] } }

/-- The Result produced by a session whose exchange and sign-in succeed with
`signInCount = 0`. -/
def resZero : SIResult :=
  { success := false, user := "13800138000", refresh_token := "newrt",
    count := 0, reward := some "无奖励",
    text := ReportFragment.failure "13800138000" none,
    text_html := ReportFragment.failure "13800138000" none }

/-- C9 witness: exchange and sign-in succeed, the response reports
`signInCount = 0`, and the Result is a failure with a failure fragment. -/
theorem result_success_iff_count_witness :
    (resZero.success = true ↔ resZero.count ≠ 0)
    ∧ (resZero.count = 0 →
      resZero.success = false ∧ ∃ u p, resZero.text = ReportFragment.failure u p) :=
  result_success_iff_count "t" exOk siZero resZero rfl

/-! Claim C7. -/

/-- A transport environment where telegram's send gets an HTTP 500 response. -/
def envTg500 : PushEnv := { envAllOk with telegram := TransportResult.response 500 false }

/-- C7 counterexample: telegram is enabled with complete settings and its
send receives an HTTP 500 response — a non-success HTTP response — yet its
dispatch outcome is true, not false: `telegram.push` only logs the failure
inside `send` and still falls through to `return True`. -/
theorem telegram_http_failure_reports_true :
    (push cfgTel envTg500).snd = [("telegram", true)] := rfl

/-- C7 (amended): a raised transport error yields outcome false for that
channel (settings present), and one channel's transport outcome never
affects another known channel's outcome; but a non-success HTTP response
does not yield false: the HTTP status code has no effect on the outcome of
telegram (which logs the failure and returns true anyway) nor of pushplus
(which never inspects the status). -/
theorem channel_transport_error_isolated
    (cfg : PushConfig) (env : PushEnv) (t : TransportResult) :
    (cfg.telegram_endpoint ≠ "" → cfg.telegram_bot_token ≠ "" →
      cfg.telegram_chat_id ≠ "" →
      invokeChannel cfg { env with telegram := TransportResult.raised } "telegram" = false)
    ∧ (cfg.pushplus_token ≠ "" →
      invokeChannel cfg { env with pushplus := TransportResult.raised } "pushplus" = false)
    ∧ (∀ s1 s2 b1 b2, telegramPush cfg (TransportResult.response s1 b1)
        = telegramPush cfg (TransportResult.response s2 b2))
    ∧ (∀ s1 s2 b1 b2, pushplusPush cfg (TransportResult.response s1 b1)
        = pushplusPush cfg (TransportResult.response s2 b2))
    ∧ invokeChannel cfg { env with telegram := t } "dingtalk"
        = invokeChannel cfg env "dingtalk"
    ∧ invokeChannel cfg { env with telegram := t } "serverchan"
        = invokeChannel cfg env "serverchan"
    ∧ invokeChannel cfg { env with telegram := t } "pushdeer"
        = invokeChannel cfg env "pushdeer"
    ∧ invokeChannel cfg { env with telegram := t } "pushplus"
        = invokeChannel cfg env "pushplus"
    ∧ invokeChannel cfg { env with telegram := t } "smtp"
        = invokeChannel cfg env "smtp" := by
  have hTg : ∀ s b, telegramPush cfg (TransportResult.response s b)
      = telegramPush cfg (TransportResult.response 200 true) := by
    intro s b
    unfold telegramPush telegramSend
    by_cases h200 : s = 200 <;> simp [h200]
  have hPp : ∀ s b, pushplusPush cfg (TransportResult.response s b)
      = pushplusPush cfg (TransportResult.response 200 true) := by
    intro s b
    unfold pushplusPush pushplusSend
    simp
  refine ⟨?_, ?_, ?_, ?_, rfl, rfl, rfl, rfl, rfl⟩
  · intro h1 h2 h3
    show telegramPush cfg TransportResult.raised = false
    unfold telegramPush telegramSend
    simp
  · intro h1
    show pushplusPush cfg TransportResult.raised = false
    unfold pushplusPush pushplusSend
    simp
  · intro s1 s2 b1 b2
    rw [hTg s1 b1, hTg s2 b2]
  · intro s1 s2 b1 b2
    rw [hPp s1 b1, hPp s2 b2]

/-- C7 witness: for the single-channel telegram config, a raised transport
error yields outcome false. -/
theorem channel_transport_error_isolated_witness :
    invokeChannel cfgTel { envAllOk with telegram := TransportResult.raised }
      "telegram" = false :=
  (channel_transport_error_isolated cfgTel envAllOk TransportResult.raised).1
    (by decide) (by decide) (by decide)

/-! Claim C8. -/

/-- A config listing the telegram channel twice. -/
def cfgDup : PushConfig := { cfgTel with push_types := Sum.inr ["telegram", "telegram"] }

/-- C8 counterexample: with `"telegram"` listed twice among the enabled
channel names, the telegram channel is invoked exactly once, not once per
occurrence: the dispatcher iterates over the fixed channel table and
membership-tests each table entry against the configured list. -/
theorem duplicate_push_type_single_invocation :
    (push cfgDup envAllOk).snd.map Prod.fst = ["telegram"] := rfl

/-- Two membership-equivalent enabled lists and outcome-equal channel
functions produce the same invocation trace. -/
theorem filterMap_if_mem_congr (l t1 t2 : List String) (f g : String → Bool)
    (hmem : ∀ n, n ∈ t1 ↔ n ∈ t2) (hf : ∀ n, f n = g n) :
    l.filterMap (fun name => if name ∈ t1 then some (name, f name) else none)
      = l.filterMap (fun name => if name ∈ t2 then some (name, g name) else none) := by
  induction l with
  | nil => rfl
  | cons x xs ih =>
    by_cases hx : x ∈ t1
    · have hx2 : x ∈ t2 := (hmem x).1 hx
      simp [List.filterMap_cons, hx, hx2, hf x, ih]
    · have hx2 : x ∉ t2 := fun h => hx ((hmem x).2 h)
      simp [List.filterMap_cons, hx, hx2, ih]

/-- C8 (amended): duplicate names in the enabled list do not re-trigger a
channel: the invocation trace never contains a channel twice, and the
dispatch for a list with duplicates is identical to the dispatch for its
deduplicated form. -/
theorem push_duplicates_no_retrigger
    (cfg : PushConfig) (env : PushEnv) (l : List String)
    (hl : cfg.push_types = Sum.inr l) :
    ((push cfg env).snd.map Prod.fst).Nodup
    ∧ push cfg env
        = push { cfg with push_types := Sum.inr l.dedup } env := by
  constructor
  · rw [push_snd_names]
    exact channelNames_nodup.filter _
  · show (Prod.mk (none : Option (List (String × Bool)))
        (channelNames.filterMap fun name =>
          if name ∈ configuredPushTypes cfg
          then some (name, invokeChannel cfg env name) else none)) = _
    have hmem : ∀ n, (n ∈ configuredPushTypes cfg)
        ↔ (n ∈ configuredPushTypes { cfg with push_types := Sum.inr l.dedup }) := by
      intro n
      simp [configuredPushTypes, hl, List.mem_map, List.mem_dedup]
    exact congrArg (Prod.mk none)
      (filterMap_if_mem_congr channelNames _ _ _ _ hmem fun _ => rfl)

/-- C8 witness: the duplicated telegram list dispatches identically to the
deduplicated one. -/
theorem push_duplicates_no_retrigger_witness :
    ((push cfgDup envAllOk).snd.map Prod.fst).Nodup
    ∧ push cfgDup envAllOk
        = push { cfgDup with
                 push_types := Sum.inr (["telegram", "telegram"] : List String).dedup }
            envAllOk :=
  push_duplicates_no_retrigger cfgDup envAllOk ["telegram", "telegram"] rfl

end Aliyun
